import Mathlib

/-!
Verification of the `process_graph` Rust library (src/src/lib.rs).

The library composes typed processing units ("nodes").  A node is anything
implementing `GraphNode<In, Out>` with `fn run(&mut self, input: In) -> Out`:
it consumes an input, produces an output, and may mutate its own state.
Composition forms:
  * `pipe` / `Graph { src, sink }`: sequential composition, whose `run` is
    `self.sink.run(self.src.run(input))`;
  * tuple groups: the macro `impl_graph_node_for_tuples` implements
    `GraphNode` for tuples of nodes of arity 1 through 8, running the
    sub-nodes positionally, left to right;
  * the `graph!` macro, pure construction-time sugar expanding to nested
    `pipe` calls.

Embedding.  A Rust node is modelled as a state-passing function.  The state
type `σ` models the node value itself (`&mut self`); `run` consumes the state
and returns the new state together with the output.  To make evaluation
*order* observable (Rust mutations are sequenced; a pure state-passing
function composed componentwise is not), every run also threads a global
event log (`List Nat`), appended to in exactly the order in which the Rust
source performs the `run` calls: this is the standard state+writer monadic
translation of the imperative code.  Leaf nodes built from pure functions
leave both the state and the log untouched.
-/

/-- Result of running a node: the produced output, the node's new state
(the mutated `self`), and the event log after the call. -/
structure Res (σ O : Type) where
  out : O
  st : σ
  log : List Nat
  deriving Repr, DecidableEq

/-- A graph node with state type `σ`, input `I`, output `O`:
the state+writer translation of `fn run(&mut self, input: In) -> Out`. -/
def Node (σ I O : Type) : Type := σ → List Nat → I → Res σ O

/-- The blanket impl `impl<In, Out, F: FnMut(In) -> Out> GraphNode<In, Out> for F`
applied to a plain function (an `Fn` closure capturing nothing): `run` just
calls the function.  No state, no events. -/
def fnNode {I O : Type} (f : I → O) : Node Unit I O :=
  fun s log x => ⟨f x, s, log⟩

/-- The same blanket impl applied to an `FnMut` closure with captured mutable
state `σ`: `run` calls the closure, which may update its captures. -/
def stNode {σ I O : Type} (f : σ → I → O × σ) : Node σ I O :=
  fun s log x => ⟨(f s x).1, (f s x).2, log⟩

/-- Instrumented node used to observe execution order: behaves like
`stNode f` but additionally records the event `tag` in the global log, the
way a Rust test node would push to a shared `Rc<RefCell<Vec<_>>>`. -/
def probe {σ I O : Type} (tag : Nat) (f : σ → I → O × σ) : Node σ I O :=
  fun s log x => ⟨(f s x).1, (f s x).2, log ++ [tag]⟩

/-- `GraphNode::pipe` composed with `Graph`'s `run`:
`fn run(&mut self, input: In) -> Out { self.sink.run(self.src.run(input)) }`.
The argument `self.src.run(input)` is evaluated first, then the outer call
runs `sink`; the composite state is the pair of the sub-states. -/
def pipe {σ₁ σ₂ I M O : Type} (src : Node σ₁ I M) (sink : Node σ₂ M O) :
    Node (σ₁ × σ₂) I O :=
  fun s log x =>
    let m := src s.1 log x
    let r := sink s.2 m.log m.out
    ⟨r.out, (m.st, r.st), r.log⟩

/-- Arity-1 instance of `impl_graph_node_for_tuples`: `(T,)` runs its single
sub-node (Rust 1-tuples of values collapse to the value in this embedding). -/
def tuple1 {σ₁ I₁ O₁ : Type} (a : Node σ₁ I₁ O₁) : Node σ₁ I₁ O₁ :=
  fun s log x => a s log x

/-- Arity-2 instance of `impl_graph_node_for_tuples`: the tuple expression
`(A.run(xa), B.run(xb))` evaluates its fields left to right. -/
def tuple2 {σ₁ I₁ O₁ σ₂ I₂ O₂ : Type}
    (a : Node σ₁ I₁ O₁) (b : Node σ₂ I₂ O₂) :
    Node (σ₁ × σ₂) (I₁ × I₂) (O₁ × O₂) :=
  fun s log x =>
    let r₁ := a s.1 log x.1
    let r₂ := b s.2 r₁.log x.2
    ⟨(r₁.out, r₂.out), (r₁.st, r₂.st), r₂.log⟩

/-- Arity-3 instance of `impl_graph_node_for_tuples`. -/
def tuple3 {σ₁ I₁ O₁ σ₂ I₂ O₂ σ₃ I₃ O₃ : Type}
    (a : Node σ₁ I₁ O₁) (b : Node σ₂ I₂ O₂) (c : Node σ₃ I₃ O₃) :
    Node (σ₁ × σ₂ × σ₃) (I₁ × I₂ × I₃) (O₁ × O₂ × O₃) :=
  fun s log x =>
    let r₁ := a s.1 log x.1
    let r₂ := b s.2.1 r₁.log x.2.1
    let r₃ := c s.2.2 r₂.log x.2.2
    ⟨(r₁.out, r₂.out, r₃.out), (r₁.st, r₂.st, r₃.st), r₃.log⟩

/-- Arity-4 instance of `impl_graph_node_for_tuples`. -/
def tuple4 {σ1 I1 O1 σ2 I2 O2 σ3 I3 O3 σ4 I4 O4 : Type}
    (a : Node σ1 I1 O1) (b : Node σ2 I2 O2) (c : Node σ3 I3 O3) (d : Node σ4 I4 O4) :
    Node (σ1 × σ2 × σ3 × σ4) (I1 × I2 × I3 × I4) (O1 × O2 × O3 × O4) :=
  fun s log x =>
    let r1 := a s.1 log x.1
    let r2 := b s.2.1 r1.log x.2.1
    let r3 := c s.2.2.1 r2.log x.2.2.1
    let r4 := d s.2.2.2 r3.log x.2.2.2
    ⟨(r1.out, r2.out, r3.out, r4.out), (r1.st, r2.st, r3.st, r4.st), r4.log⟩

/-- Arity-5 instance of `impl_graph_node_for_tuples`. -/
def tuple5 {σ1 I1 O1 σ2 I2 O2 σ3 I3 O3 σ4 I4 O4 σ5 I5 O5 : Type}
    (a : Node σ1 I1 O1) (b : Node σ2 I2 O2) (c : Node σ3 I3 O3) (d : Node σ4 I4 O4) (e : Node σ5 I5 O5) :
    Node (σ1 × σ2 × σ3 × σ4 × σ5) (I1 × I2 × I3 × I4 × I5) (O1 × O2 × O3 × O4 × O5) :=
  fun s log x =>
    let r1 := a s.1 log x.1
    let r2 := b s.2.1 r1.log x.2.1
    let r3 := c s.2.2.1 r2.log x.2.2.1
    let r4 := d s.2.2.2.1 r3.log x.2.2.2.1
    let r5 := e s.2.2.2.2 r4.log x.2.2.2.2
    ⟨(r1.out, r2.out, r3.out, r4.out, r5.out), (r1.st, r2.st, r3.st, r4.st, r5.st), r5.log⟩

/-- Arity-6 instance of `impl_graph_node_for_tuples`. -/
def tuple6 {σ1 I1 O1 σ2 I2 O2 σ3 I3 O3 σ4 I4 O4 σ5 I5 O5 σ6 I6 O6 : Type}
    (a : Node σ1 I1 O1) (b : Node σ2 I2 O2) (c : Node σ3 I3 O3) (d : Node σ4 I4 O4) (e : Node σ5 I5 O5) (f : Node σ6 I6 O6) :
    Node (σ1 × σ2 × σ3 × σ4 × σ5 × σ6) (I1 × I2 × I3 × I4 × I5 × I6) (O1 × O2 × O3 × O4 × O5 × O6) :=
  fun s log x =>
    let r1 := a s.1 log x.1
    let r2 := b s.2.1 r1.log x.2.1
    let r3 := c s.2.2.1 r2.log x.2.2.1
    let r4 := d s.2.2.2.1 r3.log x.2.2.2.1
    let r5 := e s.2.2.2.2.1 r4.log x.2.2.2.2.1
    let r6 := f s.2.2.2.2.2 r5.log x.2.2.2.2.2
    ⟨(r1.out, r2.out, r3.out, r4.out, r5.out, r6.out), (r1.st, r2.st, r3.st, r4.st, r5.st, r6.st), r6.log⟩

/-- Arity-7 instance of `impl_graph_node_for_tuples`. -/
def tuple7 {σ1 I1 O1 σ2 I2 O2 σ3 I3 O3 σ4 I4 O4 σ5 I5 O5 σ6 I6 O6 σ7 I7 O7 : Type}
    (a : Node σ1 I1 O1) (b : Node σ2 I2 O2) (c : Node σ3 I3 O3) (d : Node σ4 I4 O4) (e : Node σ5 I5 O5) (f : Node σ6 I6 O6) (g : Node σ7 I7 O7) :
    Node (σ1 × σ2 × σ3 × σ4 × σ5 × σ6 × σ7) (I1 × I2 × I3 × I4 × I5 × I6 × I7) (O1 × O2 × O3 × O4 × O5 × O6 × O7) :=
  fun s log x =>
    let r1 := a s.1 log x.1
    let r2 := b s.2.1 r1.log x.2.1
    let r3 := c s.2.2.1 r2.log x.2.2.1
    let r4 := d s.2.2.2.1 r3.log x.2.2.2.1
    let r5 := e s.2.2.2.2.1 r4.log x.2.2.2.2.1
    let r6 := f s.2.2.2.2.2.1 r5.log x.2.2.2.2.2.1
    let r7 := g s.2.2.2.2.2.2 r6.log x.2.2.2.2.2.2
    ⟨(r1.out, r2.out, r3.out, r4.out, r5.out, r6.out, r7.out), (r1.st, r2.st, r3.st, r4.st, r5.st, r6.st, r7.st), r7.log⟩

/-- Arity-8 instance of `impl_graph_node_for_tuples`. -/
def tuple8 {σ1 I1 O1 σ2 I2 O2 σ3 I3 O3 σ4 I4 O4 σ5 I5 O5 σ6 I6 O6 σ7 I7 O7 σ8 I8 O8 : Type}
    (a : Node σ1 I1 O1) (b : Node σ2 I2 O2) (c : Node σ3 I3 O3) (d : Node σ4 I4 O4) (e : Node σ5 I5 O5) (f : Node σ6 I6 O6) (g : Node σ7 I7 O7) (h : Node σ8 I8 O8) :
    Node (σ1 × σ2 × σ3 × σ4 × σ5 × σ6 × σ7 × σ8) (I1 × I2 × I3 × I4 × I5 × I6 × I7 × I8) (O1 × O2 × O3 × O4 × O5 × O6 × O7 × O8) :=
  fun s log x =>
    let r1 := a s.1 log x.1
    let r2 := b s.2.1 r1.log x.2.1
    let r3 := c s.2.2.1 r2.log x.2.2.1
    let r4 := d s.2.2.2.1 r3.log x.2.2.2.1
    let r5 := e s.2.2.2.2.1 r4.log x.2.2.2.2.1
    let r6 := f s.2.2.2.2.2.1 r5.log x.2.2.2.2.2.1
    let r7 := g s.2.2.2.2.2.2.1 r6.log x.2.2.2.2.2.2.1
    let r8 := h s.2.2.2.2.2.2.2 r7.log x.2.2.2.2.2.2.2
    ⟨(r1.out, r2.out, r3.out, r4.out, r5.out, r6.out, r7.out, r8.out), (r1.st, r2.st, r3.st, r4.st, r5.st, r6.st, r7.st, r8.st), r8.log⟩


/-!
Panic semantics.  `run` is contractually infallible in Rust; a failure inside
a node is a panic that aborts the whole call chain.  To reason about aborts
we translate the same tuple-group `run` bodies under a panic monad: a
fallible node returns `none` for "panicked", together with whatever state
mutations it applied before panicking and the log so far.  A panic in one
field of the tuple expression `(T1.run(x1), ..., Tk.run(xk))` aborts the
whole expression: earlier fields have already been evaluated (their state
mutations stand), later fields are never evaluated.
-/

/-- Result of running a fallible node: `out = none` means the node panicked;
`st` is the node's state at that point (mutations before the panic stand). -/
structure FRes (σ O : Type) where
  out : Option O
  st : σ
  log : List Nat
  deriving Repr, DecidableEq

/-- A fallible graph node: the state+writer+panic translation of `run`. -/
def FNode (σ I O : Type) : Type := σ → List Nat → I → FRes σ O

/-- Instrumented fallible node that always succeeds: runs `f`, records `tag`. -/
def fprobe {σ I O : Type} (tag : Nat) (f : σ → I → O × σ) : FNode σ I O :=
  fun s log x => ⟨some (f s x).1, (f s x).2, log ++ [tag]⟩

/-- Instrumented fallible node that always panics: applies the partial state
mutation `g`, records `tag`, then aborts. -/
def ffail {σ I O : Type} (tag : Nat) (g : σ → σ) : FNode σ I O :=
  fun s log _ => ⟨none, g s, log ++ [tag]⟩

/-- Arity-1 tuple-group `run` under the panic monad. -/
def ftuple1 {σ1 I1 O1 : Type}
    (a : FNode σ1 I1 O1) :
    FNode (σ1) (I1) (O1) :=
  fun s log x =>
    let r1 := a s log x
    match r1.out with
    | none => ⟨none, (r1.st), r1.log⟩
    | some o1 =>
      ⟨some (o1), (r1.st), r1.log⟩

/-- Arity-2 tuple-group `run` under the panic monad. -/
def ftuple2 {σ1 I1 O1 σ2 I2 O2 : Type}
    (a : FNode σ1 I1 O1) (b : FNode σ2 I2 O2) :
    FNode (σ1 × σ2) (I1 × I2) (O1 × O2) :=
  fun s log x =>
    let r1 := a s.1 log x.1
    match r1.out with
    | none => ⟨none, (r1.st, s.2), r1.log⟩
    | some o1 =>
      let r2 := b s.2 r1.log x.2
      match r2.out with
      | none => ⟨none, (r1.st, r2.st), r2.log⟩
      | some o2 =>
        ⟨some (o1, o2), (r1.st, r2.st), r2.log⟩

/-- Arity-3 tuple-group `run` under the panic monad. -/
def ftuple3 {σ1 I1 O1 σ2 I2 O2 σ3 I3 O3 : Type}
    (a : FNode σ1 I1 O1) (b : FNode σ2 I2 O2) (c : FNode σ3 I3 O3) :
    FNode (σ1 × σ2 × σ3) (I1 × I2 × I3) (O1 × O2 × O3) :=
  fun s log x =>
    let r1 := a s.1 log x.1
    match r1.out with
    | none => ⟨none, (r1.st, s.2.1, s.2.2), r1.log⟩
    | some o1 =>
      let r2 := b s.2.1 r1.log x.2.1
      match r2.out with
      | none => ⟨none, (r1.st, r2.st, s.2.2), r2.log⟩
      | some o2 =>
        let r3 := c s.2.2 r2.log x.2.2
        match r3.out with
        | none => ⟨none, (r1.st, r2.st, r3.st), r3.log⟩
        | some o3 =>
          ⟨some (o1, o2, o3), (r1.st, r2.st, r3.st), r3.log⟩

/-- Arity-4 tuple-group `run` under the panic monad. -/
def ftuple4 {σ1 I1 O1 σ2 I2 O2 σ3 I3 O3 σ4 I4 O4 : Type}
    (a : FNode σ1 I1 O1) (b : FNode σ2 I2 O2) (c : FNode σ3 I3 O3) (d : FNode σ4 I4 O4) :
    FNode (σ1 × σ2 × σ3 × σ4) (I1 × I2 × I3 × I4) (O1 × O2 × O3 × O4) :=
  fun s log x =>
    let r1 := a s.1 log x.1
    match r1.out with
    | none => ⟨none, (r1.st, s.2.1, s.2.2.1, s.2.2.2), r1.log⟩
    | some o1 =>
      let r2 := b s.2.1 r1.log x.2.1
      match r2.out with
      | none => ⟨none, (r1.st, r2.st, s.2.2.1, s.2.2.2), r2.log⟩
      | some o2 =>
        let r3 := c s.2.2.1 r2.log x.2.2.1
        match r3.out with
        | none => ⟨none, (r1.st, r2.st, r3.st, s.2.2.2), r3.log⟩
        | some o3 =>
          let r4 := d s.2.2.2 r3.log x.2.2.2
          match r4.out with
          | none => ⟨none, (r1.st, r2.st, r3.st, r4.st), r4.log⟩
          | some o4 =>
            ⟨some (o1, o2, o3, o4), (r1.st, r2.st, r3.st, r4.st), r4.log⟩

/-- Arity-5 tuple-group `run` under the panic monad. -/
def ftuple5 {σ1 I1 O1 σ2 I2 O2 σ3 I3 O3 σ4 I4 O4 σ5 I5 O5 : Type}
    (a : FNode σ1 I1 O1) (b : FNode σ2 I2 O2) (c : FNode σ3 I3 O3) (d : FNode σ4 I4 O4) (e : FNode σ5 I5 O5) :
    FNode (σ1 × σ2 × σ3 × σ4 × σ5) (I1 × I2 × I3 × I4 × I5) (O1 × O2 × O3 × O4 × O5) :=
  fun s log x =>
    let r1 := a s.1 log x.1
    match r1.out with
    | none => ⟨none, (r1.st, s.2.1, s.2.2.1, s.2.2.2.1, s.2.2.2.2), r1.log⟩
    | some o1 =>
      let r2 := b s.2.1 r1.log x.2.1
      match r2.out with
      | none => ⟨none, (r1.st, r2.st, s.2.2.1, s.2.2.2.1, s.2.2.2.2), r2.log⟩
      | some o2 =>
        let r3 := c s.2.2.1 r2.log x.2.2.1
        match r3.out with
        | none => ⟨none, (r1.st, r2.st, r3.st, s.2.2.2.1, s.2.2.2.2), r3.log⟩
        | some o3 =>
          let r4 := d s.2.2.2.1 r3.log x.2.2.2.1
          match r4.out with
          | none => ⟨none, (r1.st, r2.st, r3.st, r4.st, s.2.2.2.2), r4.log⟩
          | some o4 =>
            let r5 := e s.2.2.2.2 r4.log x.2.2.2.2
            match r5.out with
            | none => ⟨none, (r1.st, r2.st, r3.st, r4.st, r5.st), r5.log⟩
            | some o5 =>
              ⟨some (o1, o2, o3, o4, o5), (r1.st, r2.st, r3.st, r4.st, r5.st), r5.log⟩

/-- Arity-6 tuple-group `run` under the panic monad. -/
def ftuple6 {σ1 I1 O1 σ2 I2 O2 σ3 I3 O3 σ4 I4 O4 σ5 I5 O5 σ6 I6 O6 : Type}
    (a : FNode σ1 I1 O1) (b : FNode σ2 I2 O2) (c : FNode σ3 I3 O3) (d : FNode σ4 I4 O4) (e : FNode σ5 I5 O5) (f : FNode σ6 I6 O6) :
    FNode (σ1 × σ2 × σ3 × σ4 × σ5 × σ6) (I1 × I2 × I3 × I4 × I5 × I6) (O1 × O2 × O3 × O4 × O5 × O6) :=
  fun s log x =>
    let r1 := a s.1 log x.1
    match r1.out with
    | none => ⟨none, (r1.st, s.2.1, s.2.2.1, s.2.2.2.1, s.2.2.2.2.1, s.2.2.2.2.2), r1.log⟩
    | some o1 =>
      let r2 := b s.2.1 r1.log x.2.1
      match r2.out with
      | none => ⟨none, (r1.st, r2.st, s.2.2.1, s.2.2.2.1, s.2.2.2.2.1, s.2.2.2.2.2), r2.log⟩
      | some o2 =>
        let r3 := c s.2.2.1 r2.log x.2.2.1
        match r3.out with
        | none => ⟨none, (r1.st, r2.st, r3.st, s.2.2.2.1, s.2.2.2.2.1, s.2.2.2.2.2), r3.log⟩
        | some o3 =>
          let r4 := d s.2.2.2.1 r3.log x.2.2.2.1
          match r4.out with
          | none => ⟨none, (r1.st, r2.st, r3.st, r4.st, s.2.2.2.2.1, s.2.2.2.2.2), r4.log⟩
          | some o4 =>
            let r5 := e s.2.2.2.2.1 r4.log x.2.2.2.2.1
            match r5.out with
            | none => ⟨none, (r1.st, r2.st, r3.st, r4.st, r5.st, s.2.2.2.2.2), r5.log⟩
            | some o5 =>
              let r6 := f s.2.2.2.2.2 r5.log x.2.2.2.2.2
              match r6.out with
              | none => ⟨none, (r1.st, r2.st, r3.st, r4.st, r5.st, r6.st), r6.log⟩
              | some o6 =>
                ⟨some (o1, o2, o3, o4, o5, o6), (r1.st, r2.st, r3.st, r4.st, r5.st, r6.st), r6.log⟩

/-- Arity-7 tuple-group `run` under the panic monad. -/
def ftuple7 {σ1 I1 O1 σ2 I2 O2 σ3 I3 O3 σ4 I4 O4 σ5 I5 O5 σ6 I6 O6 σ7 I7 O7 : Type}
    (a : FNode σ1 I1 O1) (b : FNode σ2 I2 O2) (c : FNode σ3 I3 O3) (d : FNode σ4 I4 O4) (e : FNode σ5 I5 O5) (f : FNode σ6 I6 O6) (g : FNode σ7 I7 O7) :
    FNode (σ1 × σ2 × σ3 × σ4 × σ5 × σ6 × σ7) (I1 × I2 × I3 × I4 × I5 × I6 × I7) (O1 × O2 × O3 × O4 × O5 × O6 × O7) :=
  fun s log x =>
    let r1 := a s.1 log x.1
    match r1.out with
    | none => ⟨none, (r1.st, s.2.1, s.2.2.1, s.2.2.2.1, s.2.2.2.2.1, s.2.2.2.2.2.1, s.2.2.2.2.2.2), r1.log⟩
    | some o1 =>
      let r2 := b s.2.1 r1.log x.2.1
      match r2.out with
      | none => ⟨none, (r1.st, r2.st, s.2.2.1, s.2.2.2.1, s.2.2.2.2.1, s.2.2.2.2.2.1, s.2.2.2.2.2.2), r2.log⟩
      | some o2 =>
        let r3 := c s.2.2.1 r2.log x.2.2.1
        match r3.out with
        | none => ⟨none, (r1.st, r2.st, r3.st, s.2.2.2.1, s.2.2.2.2.1, s.2.2.2.2.2.1, s.2.2.2.2.2.2), r3.log⟩
        | some o3 =>
          let r4 := d s.2.2.2.1 r3.log x.2.2.2.1
          match r4.out with
          | none => ⟨none, (r1.st, r2.st, r3.st, r4.st, s.2.2.2.2.1, s.2.2.2.2.2.1, s.2.2.2.2.2.2), r4.log⟩
          | some o4 =>
            let r5 := e s.2.2.2.2.1 r4.log x.2.2.2.2.1
            match r5.out with
            | none => ⟨none, (r1.st, r2.st, r3.st, r4.st, r5.st, s.2.2.2.2.2.1, s.2.2.2.2.2.2), r5.log⟩
            | some o5 =>
              let r6 := f s.2.2.2.2.2.1 r5.log x.2.2.2.2.2.1
              match r6.out with
              | none => ⟨none, (r1.st, r2.st, r3.st, r4.st, r5.st, r6.st, s.2.2.2.2.2.2), r6.log⟩
              | some o6 =>
                let r7 := g s.2.2.2.2.2.2 r6.log x.2.2.2.2.2.2
                match r7.out with
                | none => ⟨none, (r1.st, r2.st, r3.st, r4.st, r5.st, r6.st, r7.st), r7.log⟩
                | some o7 =>
                  ⟨some (o1, o2, o3, o4, o5, o6, o7), (r1.st, r2.st, r3.st, r4.st, r5.st, r6.st, r7.st), r7.log⟩

/-- Arity-8 tuple-group `run` under the panic monad. -/
def ftuple8 {σ1 I1 O1 σ2 I2 O2 σ3 I3 O3 σ4 I4 O4 σ5 I5 O5 σ6 I6 O6 σ7 I7 O7 σ8 I8 O8 : Type}
    (a : FNode σ1 I1 O1) (b : FNode σ2 I2 O2) (c : FNode σ3 I3 O3) (d : FNode σ4 I4 O4) (e : FNode σ5 I5 O5) (f : FNode σ6 I6 O6) (g : FNode σ7 I7 O7) (h : FNode σ8 I8 O8) :
    FNode (σ1 × σ2 × σ3 × σ4 × σ5 × σ6 × σ7 × σ8) (I1 × I2 × I3 × I4 × I5 × I6 × I7 × I8) (O1 × O2 × O3 × O4 × O5 × O6 × O7 × O8) :=
  fun s log x =>
    let r1 := a s.1 log x.1
    match r1.out with
    | none => ⟨none, (r1.st, s.2.1, s.2.2.1, s.2.2.2.1, s.2.2.2.2.1, s.2.2.2.2.2.1, s.2.2.2.2.2.2.1, s.2.2.2.2.2.2.2), r1.log⟩
    | some o1 =>
      let r2 := b s.2.1 r1.log x.2.1
      match r2.out with
      | none => ⟨none, (r1.st, r2.st, s.2.2.1, s.2.2.2.1, s.2.2.2.2.1, s.2.2.2.2.2.1, s.2.2.2.2.2.2.1, s.2.2.2.2.2.2.2), r2.log⟩
      | some o2 =>
        let r3 := c s.2.2.1 r2.log x.2.2.1
        match r3.out with
        | none => ⟨none, (r1.st, r2.st, r3.st, s.2.2.2.1, s.2.2.2.2.1, s.2.2.2.2.2.1, s.2.2.2.2.2.2.1, s.2.2.2.2.2.2.2), r3.log⟩
        | some o3 =>
          let r4 := d s.2.2.2.1 r3.log x.2.2.2.1
          match r4.out with
          | none => ⟨none, (r1.st, r2.st, r3.st, r4.st, s.2.2.2.2.1, s.2.2.2.2.2.1, s.2.2.2.2.2.2.1, s.2.2.2.2.2.2.2), r4.log⟩
          | some o4 =>
            let r5 := e s.2.2.2.2.1 r4.log x.2.2.2.2.1
            match r5.out with
            | none => ⟨none, (r1.st, r2.st, r3.st, r4.st, r5.st, s.2.2.2.2.2.1, s.2.2.2.2.2.2.1, s.2.2.2.2.2.2.2), r5.log⟩
            | some o5 =>
              let r6 := f s.2.2.2.2.2.1 r5.log x.2.2.2.2.2.1
              match r6.out with
              | none => ⟨none, (r1.st, r2.st, r3.st, r4.st, r5.st, r6.st, s.2.2.2.2.2.2.1, s.2.2.2.2.2.2.2), r6.log⟩
              | some o6 =>
                let r7 := g s.2.2.2.2.2.2.1 r6.log x.2.2.2.2.2.2.1
                match r7.out with
                | none => ⟨none, (r1.st, r2.st, r3.st, r4.st, r5.st, r6.st, r7.st, s.2.2.2.2.2.2.2), r7.log⟩
                | some o7 =>
                  let r8 := h s.2.2.2.2.2.2.2 r7.log x.2.2.2.2.2.2.2
                  match r8.out with
                  | none => ⟨none, (r1.st, r2.st, r3.st, r4.st, r5.st, r6.st, r7.st, r8.st), r8.log⟩
                  | some o8 =>
                    ⟨some (o1, o2, o3, o4, o5, o6, o7, o8), (r1.st, r2.st, r3.st, r4.st, r5.st, r6.st, r7.st, r8.st), r8.log⟩


/-!
The `graph!` macro.  `graph! { => n0 => n1 => ... }` expands, by the macro's
own recursion, to `n0.pipe(n1).pipe(n2)...`: the entry rule hands the first
node to `@build`, the step rule pipes each further stage onto the
accumulator, and the base rule returns the accumulator unchanged.
-/

/-- The `graph!` macro's `@build` base rule: `graph!(@build cur)` is just
`cur`, the accumulated pipeline itself. -/
def graphBuild {σ I O : Type} (cur : Node σ I O) : Node σ I O := cur

/-- The `graph!` macro's `@build` step rule: `graph!(@build cur => next ...)`
pipes `next` onto the accumulator. -/
def graphBuildStep {σ₁ σ₂ I M O : Type} (cur : Node σ₁ I M) (next : Node σ₂ M O) :
    Node (σ₁ × σ₂) I O :=
  pipe cur next

/-!
Concrete leaf nodes used by the spec's scenarios.
-/

/-- An incrementing-counter node: an `FnMut` closure `move |_| { c += 1; c }`
whose captured counter is the state. -/
def counter : Node Nat Unit Nat :=
  stNode (fun c _ => (c + 1, c + 1))

/-- Value of a list of decimal digit characters. -/
def digitsVal (cs : List Char) : Nat :=
  cs.foldl (fun acc c => acc * 10 + (c.toNat - 48)) 0

/-- `parse_int : String -> i32`, modelled as `s.parse().unwrap()` on valid
decimal input (an optional sign followed by decimal digits). -/
def parse_int (s : String) : Int :=
  match s.data with
  | '-' :: cs => - Int.ofNat (digitsVal cs)
  | cs => Int.ofNat (digitsVal cs)

/-- `double : i32 -> i32`. -/
def double : Int → Int := fun n => n * 2

/-- `stringify : i32 -> String`. -/
def stringify : Int → String := fun n => toString n

/-- Deep embedding of composite shapes whose leaves are pure functions:
an arbitrary nesting of leaf adapters, `Pipe` and `TupleGroup` (arities
1 through 8), as produced by construction-time composition. -/
inductive PG : Type → Type → Type 1 where
  | leaf : {I O : Type} → (I → O) → PG I O
  | pip : {I M O : Type} → PG I M → PG M O → PG I O
  | tup1 : {I1 O1 : Type} → PG I1 O1 → PG (I1) (O1)
  | tup2 : {I1 I2 O1 O2 : Type} → PG I1 O1 → PG I2 O2 → PG (I1 × I2) (O1 × O2)
  | tup3 : {I1 I2 I3 O1 O2 O3 : Type} → PG I1 O1 → PG I2 O2 → PG I3 O3 → PG (I1 × I2 × I3) (O1 × O2 × O3)
  | tup4 : {I1 I2 I3 I4 O1 O2 O3 O4 : Type} → PG I1 O1 → PG I2 O2 → PG I3 O3 → PG I4 O4 → PG (I1 × I2 × I3 × I4) (O1 × O2 × O3 × O4)
  | tup5 : {I1 I2 I3 I4 I5 O1 O2 O3 O4 O5 : Type} → PG I1 O1 → PG I2 O2 → PG I3 O3 → PG I4 O4 → PG I5 O5 → PG (I1 × I2 × I3 × I4 × I5) (O1 × O2 × O3 × O4 × O5)
  | tup6 : {I1 I2 I3 I4 I5 I6 O1 O2 O3 O4 O5 O6 : Type} → PG I1 O1 → PG I2 O2 → PG I3 O3 → PG I4 O4 → PG I5 O5 → PG I6 O6 → PG (I1 × I2 × I3 × I4 × I5 × I6) (O1 × O2 × O3 × O4 × O5 × O6)
  | tup7 : {I1 I2 I3 I4 I5 I6 I7 O1 O2 O3 O4 O5 O6 O7 : Type} → PG I1 O1 → PG I2 O2 → PG I3 O3 → PG I4 O4 → PG I5 O5 → PG I6 O6 → PG I7 O7 → PG (I1 × I2 × I3 × I4 × I5 × I6 × I7) (O1 × O2 × O3 × O4 × O5 × O6 × O7)
  | tup8 : {I1 I2 I3 I4 I5 I6 I7 I8 O1 O2 O3 O4 O5 O6 O7 O8 : Type} → PG I1 O1 → PG I2 O2 → PG I3 O3 → PG I4 O4 → PG I5 O5 → PG I6 O6 → PG I7 O7 → PG I8 O8 → PG (I1 × I2 × I3 × I4 × I5 × I6 × I7 × I8) (O1 × O2 × O3 × O4 × O5 × O6 × O7 × O8)

/-- The state type of a composite: the product of its leaves' (unit) states,
mirroring how each composite value owns its sub-nodes. -/
def PG.St : {I O : Type} → PG I O → Type
  | _, _, .leaf _ => Unit
  | _, _, .pip a b => St a × St b
  | _, _, .tup1 a => St a
  | _, _, .tup2 a b => St a × St b
  | _, _, .tup3 a b c => St a × St b × St c
  | _, _, .tup4 a b c d => St a × St b × St c × St d
  | _, _, .tup5 a b c d e => St a × St b × St c × St d × St e
  | _, _, .tup6 a b c d e f => St a × St b × St c × St d × St e × St f
  | _, _, .tup7 a b c d e f g => St a × St b × St c × St d × St e × St f × St g
  | _, _, .tup8 a b c d e f g h => St a × St b × St c × St d × St e × St f × St g × St h

/-- Interpretation of a composite shape as a node of the embedding: leaves
become `fnNode`s, `pip` becomes `pipe`, `tupk` becomes `tuplek`. -/
def PG.denote : {I O : Type} → (g : PG I O) → Node g.St I O
  | _, _, .leaf f => fnNode f
  | _, _, .pip a b => pipe a.denote b.denote
  | _, _, .tup1 a => tuple1 a.denote
  | _, _, .tup2 a b => tuple2 a.denote b.denote
  | _, _, .tup3 a b c => tuple3 a.denote b.denote c.denote
  | _, _, .tup4 a b c d => tuple4 a.denote b.denote c.denote d.denote
  | _, _, .tup5 a b c d e => tuple5 a.denote b.denote c.denote d.denote e.denote
  | _, _, .tup6 a b c d e f => tuple6 a.denote b.denote c.denote d.denote e.denote f.denote
  | _, _, .tup7 a b c d e f g => tuple7 a.denote b.denote c.denote d.denote e.denote f.denote g.denote
  | _, _, .tup8 a b c d e f g h => tuple8 a.denote b.denote c.denote d.denote e.denote f.denote g.denote h.denote

/-- The pure meaning of a composite with pure leaves. -/
def PG.eval : {I O : Type} → PG I O → I → O
  | _, _, .leaf f, x => f x
  | _, _, .pip a b, x => b.eval (a.eval x)
  | _, _, .tup1 a, x => a.eval x
  | _, _, .tup2 a b, x => (a.eval x.1, b.eval x.2)
  | _, _, .tup3 a b c, x => (a.eval x.1, b.eval x.2.1, c.eval x.2.2)
  | _, _, .tup4 a b c d, x => (a.eval x.1, b.eval x.2.1, c.eval x.2.2.1, d.eval x.2.2.2)
  | _, _, .tup5 a b c d e, x => (a.eval x.1, b.eval x.2.1, c.eval x.2.2.1, d.eval x.2.2.2.1, e.eval x.2.2.2.2)
  | _, _, .tup6 a b c d e f, x => (a.eval x.1, b.eval x.2.1, c.eval x.2.2.1, d.eval x.2.2.2.1, e.eval x.2.2.2.2.1, f.eval x.2.2.2.2.2)
  | _, _, .tup7 a b c d e f g, x => (a.eval x.1, b.eval x.2.1, c.eval x.2.2.1, d.eval x.2.2.2.1, e.eval x.2.2.2.2.1, f.eval x.2.2.2.2.2.1, g.eval x.2.2.2.2.2.2)
  | _, _, .tup8 a b c d e f g h, x => (a.eval x.1, b.eval x.2.1, c.eval x.2.2.1, d.eval x.2.2.2.1, e.eval x.2.2.2.2.1, f.eval x.2.2.2.2.2.1, g.eval x.2.2.2.2.2.2.1, h.eval x.2.2.2.2.2.2.2)


/-!
Claim theorems.  The `probe` nodes make the claims about invocation order
and invocation counts provable: a probe appends its tag to the global log
exactly when it runs, so the final log lists the `run` calls in order.
-/

/-- C1: a pipe composite first computes `mid = src.run(input)`, applying
`src`'s state mutation, then returns `sink.run(mid)`; `src` and `sink` are
each invoked exactly once per invocation, in that order (the log gains
exactly `[t₁, t₂]`). -/
theorem pipe_runs_src_then_sink_once :
    (∀ {σ₁ σ₂ I M O : Type} (src : Node σ₁ I M) (sink : Node σ₂ M O)
        (s₁ : σ₁) (s₂ : σ₂) (log : List Nat) (x : I),
      pipe src sink (s₁, s₂) log x =
        ⟨(sink s₂ (src s₁ log x).log (src s₁ log x).out).out,
         ((src s₁ log x).st, (sink s₂ (src s₁ log x).log (src s₁ log x).out).st),
         (sink s₂ (src s₁ log x).log (src s₁ log x).out).log⟩) ∧
    (∀ {σ₁ σ₂ I M O : Type} (f : σ₁ → I → M × σ₁) (g : σ₂ → M → O × σ₂)
        (t₁ t₂ : Nat) (s₁ : σ₁) (s₂ : σ₂) (log : List Nat) (x : I),
      pipe (probe t₁ f) (probe t₂ g) (s₁, s₂) log x =
        ⟨(g s₂ (f s₁ x).1).1, ((f s₁ x).2, (g s₂ (f s₁ x).1).2),
         log ++ [t₁, t₂]⟩) := by
  constructor
  · intros; rfl
  · intros; simp [pipe, probe]

/-- C3: the `graph!` expansion of the chain `start ⇒ a ⇒ (b, c) ⇒ d` is
exactly the manual composition `start.pipe(a).pipe((b, c)).pipe(d)` — the
same nested Pipe/TupleGroup value — and hence produces the same output on
every input. -/
theorem graph_chain_equals_manual :
    ∀ {σs σa σb σc σd I M Ib Ic Ob Oc O : Type}
      (start : Node σs I M) (a : Node σa M (Ib × Ic))
      (b : Node σb Ib Ob) (c : Node σc Ic Oc) (d : Node σd (Ob × Oc) O),
      graphBuild (graphBuildStep (graphBuildStep (graphBuildStep start a)
          (tuple2 b c)) d) =
        pipe (pipe (pipe start a) (tuple2 b c)) d ∧
      ∀ (s : ((σs × σa) × σb × σc) × σd) (log : List Nat) (x : I),
        graphBuild (graphBuildStep (graphBuildStep (graphBuildStep start a)
            (tuple2 b c)) d) s log x =
          pipe (pipe (pipe start a) (tuple2 b c)) d s log x := by
  intros; exact ⟨rfl, fun s log x => rfl⟩

/-- C4: wrapping a function `f` as a node (the blanket `FnMut` impl) and
running it on `x` returns exactly `f x`, with no state change and no
events. -/
theorem fn_node_returns_function_value :
    ∀ {I O : Type} (f : I → O) (s : Unit) (log : List Nat) (x : I),
      fnNode f s log x = ⟨f x, s, log⟩ := by
  intros; rfl

/-- C5: sequential composition is associative: `(A.pipe(B)).pipe(C)` and
`A.pipe(B.pipe(C))` return the same output and the same log on every input
(states agree up to the re-association of the pairing), and with probed
nodes both execute the side effects in order `A`, `B`, `C`. -/
theorem pipe_assoc :
    (∀ {σ₁ σ₂ σ₃ I M N O : Type} (A : Node σ₁ I M) (B : Node σ₂ M N)
        (C : Node σ₃ N O) (s₁ : σ₁) (s₂ : σ₂) (s₃ : σ₃)
        (log : List Nat) (x : I),
      pipe (pipe A B) C ((s₁, s₂), s₃) log x =
        let r := pipe A (pipe B C) (s₁, s₂, s₃) log x
        ⟨r.out, ((r.st.1, r.st.2.1), r.st.2.2), r.log⟩) ∧
    (∀ {σ₁ σ₂ σ₃ I M N O : Type} (f : σ₁ → I → M × σ₁) (g : σ₂ → M → N × σ₂)
        (h : σ₃ → N → O × σ₃) (tA tB tC : Nat) (s₁ : σ₁) (s₂ : σ₂) (s₃ : σ₃)
        (log : List Nat) (x : I),
      (pipe (pipe (probe tA f) (probe tB g)) (probe tC h)
          ((s₁, s₂), s₃) log x).log = log ++ [tA, tB, tC] ∧
      (pipe (probe tA f) (pipe (probe tB g) (probe tC h))
          (s₁, s₂, s₃) log x).log = log ++ [tA, tB, tC]) := by
  constructor
  · intros; rfl
  · intros; constructor <;> simp [pipe, probe]

/-- C6: a counter node inside a composite returns successive values: run
from the initial state it returns `1` (new counter state `1`); run again
from the resulting state it returns `2`; a fresh instance (initial state
again) returns `1`, so state persists exactly as long as the instance
does. -/
theorem counter_node_successive_values :
    (pipe counter (fnNode (fun n : Nat => n)) (0, ()) [] ()).out = 1 ∧
    (pipe counter (fnNode (fun n : Nat => n)) (0, ()) [] ()).st = (1, ()) ∧
    (pipe counter (fnNode (fun n : Nat => n))
        ((pipe counter (fnNode (fun n : Nat => n)) (0, ()) [] ()).st)
        [] ()).out = 2 ∧
    (pipe counter (fnNode (fun n : Nat => n)) (0, ()) [] ()).out = 1 := by
  refine ⟨rfl, rfl, rfl, rfl⟩

/-- C7: the three-stage composite `parse_int.pipe(double).pipe(stringify)`
maps the input string `"21"` to the output string `"42"`. -/
theorem three_stage_chain_21_42 :
    pipe (pipe (fnNode parse_int) (fnNode double)) (fnNode stringify)
      (((), ()), ()) [] "21" = ⟨"42", (((), ()), ()), []⟩ := by
  rfl

/-- C9: the `graph!` macro applied to a single node, `graph! { => n }`,
expands to the base `@build` rule and is the node `n` itself: no wrapper is
introduced, so running it is running `n`. -/
theorem graph_single_stage_is_node_itself :
    ∀ {σ I O : Type} (n : Node σ I O),
      graphBuild n = n ∧ ∀ (s : σ) (log : List Nat) (x : I),
        graphBuild n s log x = n s log x := by
  intros; exact ⟨rfl, fun s log x => rfl⟩

/-- C2: for every arity `k` with `1 <= k <= 8`, the tuple group runs its
sub-nodes strictly left to right (the log gains the slot tags in positional
order), the output tuple is exactly the tuple of the slots' own outputs, and
each slot's state mutation touches only that slot's sub-node. -/
theorem tuple_group_slots_left_to_right :
    (∀ {σ1 I1 O1 : Type} (f1 : σ1 → I1 → O1 × σ1)
        (t1 : Nat) (s1 : σ1) (log : List Nat) (x1 : I1),
      tuple1 (probe t1 f1) s1 log x1 =
        ⟨(f1 s1 x1).1, (f1 s1 x1).2, log ++ [t1]⟩) ∧
    (∀ {σ1 I1 O1 σ2 I2 O2 : Type} (f1 : σ1 → I1 → O1 × σ1) (f2 : σ2 → I2 → O2 × σ2)
        (t1 t2 : Nat) (s1 : σ1) (s2 : σ2) (log : List Nat) (x1 : I1) (x2 : I2),
      tuple2 (probe t1 f1) (probe t2 f2) (s1, s2) log (x1, x2) =
        ⟨((f1 s1 x1).1, (f2 s2 x2).1), ((f1 s1 x1).2, (f2 s2 x2).2), log ++ [t1, t2]⟩) ∧
    (∀ {σ1 I1 O1 σ2 I2 O2 σ3 I3 O3 : Type} (f1 : σ1 → I1 → O1 × σ1) (f2 : σ2 → I2 → O2 × σ2) (f3 : σ3 → I3 → O3 × σ3)
        (t1 t2 t3 : Nat) (s1 : σ1) (s2 : σ2) (s3 : σ3) (log : List Nat) (x1 : I1) (x2 : I2) (x3 : I3),
      tuple3 (probe t1 f1) (probe t2 f2) (probe t3 f3) (s1, s2, s3) log (x1, x2, x3) =
        ⟨((f1 s1 x1).1, (f2 s2 x2).1, (f3 s3 x3).1), ((f1 s1 x1).2, (f2 s2 x2).2, (f3 s3 x3).2), log ++ [t1, t2, t3]⟩) ∧
    (∀ {σ1 I1 O1 σ2 I2 O2 σ3 I3 O3 σ4 I4 O4 : Type} (f1 : σ1 → I1 → O1 × σ1) (f2 : σ2 → I2 → O2 × σ2) (f3 : σ3 → I3 → O3 × σ3) (f4 : σ4 → I4 → O4 × σ4)
        (t1 t2 t3 t4 : Nat) (s1 : σ1) (s2 : σ2) (s3 : σ3) (s4 : σ4) (log : List Nat) (x1 : I1) (x2 : I2) (x3 : I3) (x4 : I4),
      tuple4 (probe t1 f1) (probe t2 f2) (probe t3 f3) (probe t4 f4) (s1, s2, s3, s4) log (x1, x2, x3, x4) =
        ⟨((f1 s1 x1).1, (f2 s2 x2).1, (f3 s3 x3).1, (f4 s4 x4).1), ((f1 s1 x1).2, (f2 s2 x2).2, (f3 s3 x3).2, (f4 s4 x4).2), log ++ [t1, t2, t3, t4]⟩) ∧
    (∀ {σ1 I1 O1 σ2 I2 O2 σ3 I3 O3 σ4 I4 O4 σ5 I5 O5 : Type} (f1 : σ1 → I1 → O1 × σ1) (f2 : σ2 → I2 → O2 × σ2) (f3 : σ3 → I3 → O3 × σ3) (f4 : σ4 → I4 → O4 × σ4) (f5 : σ5 → I5 → O5 × σ5)
        (t1 t2 t3 t4 t5 : Nat) (s1 : σ1) (s2 : σ2) (s3 : σ3) (s4 : σ4) (s5 : σ5) (log : List Nat) (x1 : I1) (x2 : I2) (x3 : I3) (x4 : I4) (x5 : I5),
      tuple5 (probe t1 f1) (probe t2 f2) (probe t3 f3) (probe t4 f4) (probe t5 f5) (s1, s2, s3, s4, s5) log (x1, x2, x3, x4, x5) =
        ⟨((f1 s1 x1).1, (f2 s2 x2).1, (f3 s3 x3).1, (f4 s4 x4).1, (f5 s5 x5).1), ((f1 s1 x1).2, (f2 s2 x2).2, (f3 s3 x3).2, (f4 s4 x4).2, (f5 s5 x5).2), log ++ [t1, t2, t3, t4, t5]⟩) ∧
    (∀ {σ1 I1 O1 σ2 I2 O2 σ3 I3 O3 σ4 I4 O4 σ5 I5 O5 σ6 I6 O6 : Type} (f1 : σ1 → I1 → O1 × σ1) (f2 : σ2 → I2 → O2 × σ2) (f3 : σ3 → I3 → O3 × σ3) (f4 : σ4 → I4 → O4 × σ4) (f5 : σ5 → I5 → O5 × σ5) (f6 : σ6 → I6 → O6 × σ6)
        (t1 t2 t3 t4 t5 t6 : Nat) (s1 : σ1) (s2 : σ2) (s3 : σ3) (s4 : σ4) (s5 : σ5) (s6 : σ6) (log : List Nat) (x1 : I1) (x2 : I2) (x3 : I3) (x4 : I4) (x5 : I5) (x6 : I6),
      tuple6 (probe t1 f1) (probe t2 f2) (probe t3 f3) (probe t4 f4) (probe t5 f5) (probe t6 f6) (s1, s2, s3, s4, s5, s6) log (x1, x2, x3, x4, x5, x6) =
        ⟨((f1 s1 x1).1, (f2 s2 x2).1, (f3 s3 x3).1, (f4 s4 x4).1, (f5 s5 x5).1, (f6 s6 x6).1), ((f1 s1 x1).2, (f2 s2 x2).2, (f3 s3 x3).2, (f4 s4 x4).2, (f5 s5 x5).2, (f6 s6 x6).2), log ++ [t1, t2, t3, t4, t5, t6]⟩) ∧
    (∀ {σ1 I1 O1 σ2 I2 O2 σ3 I3 O3 σ4 I4 O4 σ5 I5 O5 σ6 I6 O6 σ7 I7 O7 : Type} (f1 : σ1 → I1 → O1 × σ1) (f2 : σ2 → I2 → O2 × σ2) (f3 : σ3 → I3 → O3 × σ3) (f4 : σ4 → I4 → O4 × σ4) (f5 : σ5 → I5 → O5 × σ5) (f6 : σ6 → I6 → O6 × σ6) (f7 : σ7 → I7 → O7 × σ7)
        (t1 t2 t3 t4 t5 t6 t7 : Nat) (s1 : σ1) (s2 : σ2) (s3 : σ3) (s4 : σ4) (s5 : σ5) (s6 : σ6) (s7 : σ7) (log : List Nat) (x1 : I1) (x2 : I2) (x3 : I3) (x4 : I4) (x5 : I5) (x6 : I6) (x7 : I7),
      tuple7 (probe t1 f1) (probe t2 f2) (probe t3 f3) (probe t4 f4) (probe t5 f5) (probe t6 f6) (probe t7 f7) (s1, s2, s3, s4, s5, s6, s7) log (x1, x2, x3, x4, x5, x6, x7) =
        ⟨((f1 s1 x1).1, (f2 s2 x2).1, (f3 s3 x3).1, (f4 s4 x4).1, (f5 s5 x5).1, (f6 s6 x6).1, (f7 s7 x7).1), ((f1 s1 x1).2, (f2 s2 x2).2, (f3 s3 x3).2, (f4 s4 x4).2, (f5 s5 x5).2, (f6 s6 x6).2, (f7 s7 x7).2), log ++ [t1, t2, t3, t4, t5, t6, t7]⟩) ∧
    (∀ {σ1 I1 O1 σ2 I2 O2 σ3 I3 O3 σ4 I4 O4 σ5 I5 O5 σ6 I6 O6 σ7 I7 O7 σ8 I8 O8 : Type} (f1 : σ1 → I1 → O1 × σ1) (f2 : σ2 → I2 → O2 × σ2) (f3 : σ3 → I3 → O3 × σ3) (f4 : σ4 → I4 → O4 × σ4) (f5 : σ5 → I5 → O5 × σ5) (f6 : σ6 → I6 → O6 × σ6) (f7 : σ7 → I7 → O7 × σ7) (f8 : σ8 → I8 → O8 × σ8)
        (t1 t2 t3 t4 t5 t6 t7 t8 : Nat) (s1 : σ1) (s2 : σ2) (s3 : σ3) (s4 : σ4) (s5 : σ5) (s6 : σ6) (s7 : σ7) (s8 : σ8) (log : List Nat) (x1 : I1) (x2 : I2) (x3 : I3) (x4 : I4) (x5 : I5) (x6 : I6) (x7 : I7) (x8 : I8),
      tuple8 (probe t1 f1) (probe t2 f2) (probe t3 f3) (probe t4 f4) (probe t5 f5) (probe t6 f6) (probe t7 f7) (probe t8 f8) (s1, s2, s3, s4, s5, s6, s7, s8) log (x1, x2, x3, x4, x5, x6, x7, x8) =
        ⟨((f1 s1 x1).1, (f2 s2 x2).1, (f3 s3 x3).1, (f4 s4 x4).1, (f5 s5 x5).1, (f6 s6 x6).1, (f7 s7 x7).1, (f8 s8 x8).1), ((f1 s1 x1).2, (f2 s2 x2).2, (f3 s3 x3).2, (f4 s4 x4).2, (f5 s5 x5).2, (f6 s6 x6).2, (f7 s7 x7).2, (f8 s8 x8).2), log ++ [t1, t2, t3, t4, t5, t6, t7, t8]⟩) := by
  refine ⟨?_, ?_, ?_, ?_, ?_, ?_, ?_, ?_⟩ <;>
    { intros
      simp [tuple1, tuple2, tuple3, tuple4, tuple5, tuple6, tuple7, tuple8,
        probe] }


/-- C8: if the sub-node in slot `j` of a `k`-arity tuple group panics during
`run`, the whole group's `run` aborts with no output: the state mutations of
slots `1..j-1` remain applied, the failing slot keeps its partial mutation,
and the sub-nodes in slots `j+1..k` are never executed — their states are the
original ones and the result does not depend on them at all (they are
quantified as arbitrary fallible nodes), and the log ends at slot `j`. -/
theorem tuple_group_abort_on_slot_failure :
    (∀ {σ1 I1 O1 : Type} (g1 : σ1 → σ1)
        (t1 : Nat) (s1 : σ1) (log : List Nat) (x1 : I1),
      ftuple1 ((ffail t1 g1 : FNode σ1 I1 O1)) s1 log x1 =
        ⟨none, g1 s1, log ++ [t1]⟩) ∧
    (∀ {σ1 I1 O1 σ2 I2 O2 : Type} (g1 : σ1 → σ1) (n2 : FNode σ2 I2 O2)
        (t1 : Nat) (s1 : σ1) (s2 : σ2) (log : List Nat) (x1 : I1) (x2 : I2),
      ftuple2 ((ffail t1 g1 : FNode σ1 I1 O1)) n2 (s1, s2) log (x1, x2) =
        ⟨none, (g1 s1, s2), log ++ [t1]⟩) ∧
    (∀ {σ1 I1 O1 σ2 I2 O2 : Type} (f1 : σ1 → I1 → O1 × σ1) (g2 : σ2 → σ2)
        (t1 t2 : Nat) (s1 : σ1) (s2 : σ2) (log : List Nat) (x1 : I1) (x2 : I2),
      ftuple2 (fprobe t1 f1) ((ffail t2 g2 : FNode σ2 I2 O2)) (s1, s2) log (x1, x2) =
        ⟨none, ((f1 s1 x1).2, g2 s2), log ++ [t1, t2]⟩) ∧
    (∀ {σ1 I1 O1 σ2 I2 O2 σ3 I3 O3 : Type} (g1 : σ1 → σ1) (n2 : FNode σ2 I2 O2) (n3 : FNode σ3 I3 O3)
        (t1 : Nat) (s1 : σ1) (s2 : σ2) (s3 : σ3) (log : List Nat) (x1 : I1) (x2 : I2) (x3 : I3),
      ftuple3 ((ffail t1 g1 : FNode σ1 I1 O1)) n2 n3 (s1, s2, s3) log (x1, x2, x3) =
        ⟨none, (g1 s1, s2, s3), log ++ [t1]⟩) ∧
    (∀ {σ1 I1 O1 σ2 I2 O2 σ3 I3 O3 : Type} (f1 : σ1 → I1 → O1 × σ1) (g2 : σ2 → σ2) (n3 : FNode σ3 I3 O3)
        (t1 t2 : Nat) (s1 : σ1) (s2 : σ2) (s3 : σ3) (log : List Nat) (x1 : I1) (x2 : I2) (x3 : I3),
      ftuple3 (fprobe t1 f1) ((ffail t2 g2 : FNode σ2 I2 O2)) n3 (s1, s2, s3) log (x1, x2, x3) =
        ⟨none, ((f1 s1 x1).2, g2 s2, s3), log ++ [t1, t2]⟩) ∧
    (∀ {σ1 I1 O1 σ2 I2 O2 σ3 I3 O3 : Type} (f1 : σ1 → I1 → O1 × σ1) (f2 : σ2 → I2 → O2 × σ2) (g3 : σ3 → σ3)
        (t1 t2 t3 : Nat) (s1 : σ1) (s2 : σ2) (s3 : σ3) (log : List Nat) (x1 : I1) (x2 : I2) (x3 : I3),
      ftuple3 (fprobe t1 f1) (fprobe t2 f2) ((ffail t3 g3 : FNode σ3 I3 O3)) (s1, s2, s3) log (x1, x2, x3) =
        ⟨none, ((f1 s1 x1).2, (f2 s2 x2).2, g3 s3), log ++ [t1, t2, t3]⟩) ∧
    (∀ {σ1 I1 O1 σ2 I2 O2 σ3 I3 O3 σ4 I4 O4 : Type} (g1 : σ1 → σ1) (n2 : FNode σ2 I2 O2) (n3 : FNode σ3 I3 O3) (n4 : FNode σ4 I4 O4)
        (t1 : Nat) (s1 : σ1) (s2 : σ2) (s3 : σ3) (s4 : σ4) (log : List Nat) (x1 : I1) (x2 : I2) (x3 : I3) (x4 : I4),
      ftuple4 ((ffail t1 g1 : FNode σ1 I1 O1)) n2 n3 n4 (s1, s2, s3, s4) log (x1, x2, x3, x4) =
        ⟨none, (g1 s1, s2, s3, s4), log ++ [t1]⟩) ∧
    (∀ {σ1 I1 O1 σ2 I2 O2 σ3 I3 O3 σ4 I4 O4 : Type} (f1 : σ1 → I1 → O1 × σ1) (g2 : σ2 → σ2) (n3 : FNode σ3 I3 O3) (n4 : FNode σ4 I4 O4)
        (t1 t2 : Nat) (s1 : σ1) (s2 : σ2) (s3 : σ3) (s4 : σ4) (log : List Nat) (x1 : I1) (x2 : I2) (x3 : I3) (x4 : I4),
      ftuple4 (fprobe t1 f1) ((ffail t2 g2 : FNode σ2 I2 O2)) n3 n4 (s1, s2, s3, s4) log (x1, x2, x3, x4) =
        ⟨none, ((f1 s1 x1).2, g2 s2, s3, s4), log ++ [t1, t2]⟩) ∧
    (∀ {σ1 I1 O1 σ2 I2 O2 σ3 I3 O3 σ4 I4 O4 : Type} (f1 : σ1 → I1 → O1 × σ1) (f2 : σ2 → I2 → O2 × σ2) (g3 : σ3 → σ3) (n4 : FNode σ4 I4 O4)
        (t1 t2 t3 : Nat) (s1 : σ1) (s2 : σ2) (s3 : σ3) (s4 : σ4) (log : List Nat) (x1 : I1) (x2 : I2) (x3 : I3) (x4 : I4),
      ftuple4 (fprobe t1 f1) (fprobe t2 f2) ((ffail t3 g3 : FNode σ3 I3 O3)) n4 (s1, s2, s3, s4) log (x1, x2, x3, x4) =
        ⟨none, ((f1 s1 x1).2, (f2 s2 x2).2, g3 s3, s4), log ++ [t1, t2, t3]⟩) ∧
    (∀ {σ1 I1 O1 σ2 I2 O2 σ3 I3 O3 σ4 I4 O4 : Type} (f1 : σ1 → I1 → O1 × σ1) (f2 : σ2 → I2 → O2 × σ2) (f3 : σ3 → I3 → O3 × σ3) (g4 : σ4 → σ4)
        (t1 t2 t3 t4 : Nat) (s1 : σ1) (s2 : σ2) (s3 : σ3) (s4 : σ4) (log : List Nat) (x1 : I1) (x2 : I2) (x3 : I3) (x4 : I4),
      ftuple4 (fprobe t1 f1) (fprobe t2 f2) (fprobe t3 f3) ((ffail t4 g4 : FNode σ4 I4 O4)) (s1, s2, s3, s4) log (x1, x2, x3, x4) =
        ⟨none, ((f1 s1 x1).2, (f2 s2 x2).2, (f3 s3 x3).2, g4 s4), log ++ [t1, t2, t3, t4]⟩) ∧
    (∀ {σ1 I1 O1 σ2 I2 O2 σ3 I3 O3 σ4 I4 O4 σ5 I5 O5 : Type} (g1 : σ1 → σ1) (n2 : FNode σ2 I2 O2) (n3 : FNode σ3 I3 O3) (n4 : FNode σ4 I4 O4) (n5 : FNode σ5 I5 O5)
        (t1 : Nat) (s1 : σ1) (s2 : σ2) (s3 : σ3) (s4 : σ4) (s5 : σ5) (log : List Nat) (x1 : I1) (x2 : I2) (x3 : I3) (x4 : I4) (x5 : I5),
      ftuple5 ((ffail t1 g1 : FNode σ1 I1 O1)) n2 n3 n4 n5 (s1, s2, s3, s4, s5) log (x1, x2, x3, x4, x5) =
        ⟨none, (g1 s1, s2, s3, s4, s5), log ++ [t1]⟩) ∧
    (∀ {σ1 I1 O1 σ2 I2 O2 σ3 I3 O3 σ4 I4 O4 σ5 I5 O5 : Type} (f1 : σ1 → I1 → O1 × σ1) (g2 : σ2 → σ2) (n3 : FNode σ3 I3 O3) (n4 : FNode σ4 I4 O4) (n5 : FNode σ5 I5 O5)
        (t1 t2 : Nat) (s1 : σ1) (s2 : σ2) (s3 : σ3) (s4 : σ4) (s5 : σ5) (log : List Nat) (x1 : I1) (x2 : I2) (x3 : I3) (x4 : I4) (x5 : I5),
      ftuple5 (fprobe t1 f1) ((ffail t2 g2 : FNode σ2 I2 O2)) n3 n4 n5 (s1, s2, s3, s4, s5) log (x1, x2, x3, x4, x5) =
        ⟨none, ((f1 s1 x1).2, g2 s2, s3, s4, s5), log ++ [t1, t2]⟩) ∧
    (∀ {σ1 I1 O1 σ2 I2 O2 σ3 I3 O3 σ4 I4 O4 σ5 I5 O5 : Type} (f1 : σ1 → I1 → O1 × σ1) (f2 : σ2 → I2 → O2 × σ2) (g3 : σ3 → σ3) (n4 : FNode σ4 I4 O4) (n5 : FNode σ5 I5 O5)
        (t1 t2 t3 : Nat) (s1 : σ1) (s2 : σ2) (s3 : σ3) (s4 : σ4) (s5 : σ5) (log : List Nat) (x1 : I1) (x2 : I2) (x3 : I3) (x4 : I4) (x5 : I5),
      ftuple5 (fprobe t1 f1) (fprobe t2 f2) ((ffail t3 g3 : FNode σ3 I3 O3)) n4 n5 (s1, s2, s3, s4, s5) log (x1, x2, x3, x4, x5) =
        ⟨none, ((f1 s1 x1).2, (f2 s2 x2).2, g3 s3, s4, s5), log ++ [t1, t2, t3]⟩) ∧
    (∀ {σ1 I1 O1 σ2 I2 O2 σ3 I3 O3 σ4 I4 O4 σ5 I5 O5 : Type} (f1 : σ1 → I1 → O1 × σ1) (f2 : σ2 → I2 → O2 × σ2) (f3 : σ3 → I3 → O3 × σ3) (g4 : σ4 → σ4) (n5 : FNode σ5 I5 O5)
        (t1 t2 t3 t4 : Nat) (s1 : σ1) (s2 : σ2) (s3 : σ3) (s4 : σ4) (s5 : σ5) (log : List Nat) (x1 : I1) (x2 : I2) (x3 : I3) (x4 : I4) (x5 : I5),
      ftuple5 (fprobe t1 f1) (fprobe t2 f2) (fprobe t3 f3) ((ffail t4 g4 : FNode σ4 I4 O4)) n5 (s1, s2, s3, s4, s5) log (x1, x2, x3, x4, x5) =
        ⟨none, ((f1 s1 x1).2, (f2 s2 x2).2, (f3 s3 x3).2, g4 s4, s5), log ++ [t1, t2, t3, t4]⟩) ∧
    (∀ {σ1 I1 O1 σ2 I2 O2 σ3 I3 O3 σ4 I4 O4 σ5 I5 O5 : Type} (f1 : σ1 → I1 → O1 × σ1) (f2 : σ2 → I2 → O2 × σ2) (f3 : σ3 → I3 → O3 × σ3) (f4 : σ4 → I4 → O4 × σ4) (g5 : σ5 → σ5)
        (t1 t2 t3 t4 t5 : Nat) (s1 : σ1) (s2 : σ2) (s3 : σ3) (s4 : σ4) (s5 : σ5) (log : List Nat) (x1 : I1) (x2 : I2) (x3 : I3) (x4 : I4) (x5 : I5),
      ftuple5 (fprobe t1 f1) (fprobe t2 f2) (fprobe t3 f3) (fprobe t4 f4) ((ffail t5 g5 : FNode σ5 I5 O5)) (s1, s2, s3, s4, s5) log (x1, x2, x3, x4, x5) =
        ⟨none, ((f1 s1 x1).2, (f2 s2 x2).2, (f3 s3 x3).2, (f4 s4 x4).2, g5 s5), log ++ [t1, t2, t3, t4, t5]⟩) ∧
    (∀ {σ1 I1 O1 σ2 I2 O2 σ3 I3 O3 σ4 I4 O4 σ5 I5 O5 σ6 I6 O6 : Type} (g1 : σ1 → σ1) (n2 : FNode σ2 I2 O2) (n3 : FNode σ3 I3 O3) (n4 : FNode σ4 I4 O4) (n5 : FNode σ5 I5 O5) (n6 : FNode σ6 I6 O6)
        (t1 : Nat) (s1 : σ1) (s2 : σ2) (s3 : σ3) (s4 : σ4) (s5 : σ5) (s6 : σ6) (log : List Nat) (x1 : I1) (x2 : I2) (x3 : I3) (x4 : I4) (x5 : I5) (x6 : I6),
      ftuple6 ((ffail t1 g1 : FNode σ1 I1 O1)) n2 n3 n4 n5 n6 (s1, s2, s3, s4, s5, s6) log (x1, x2, x3, x4, x5, x6) =
        ⟨none, (g1 s1, s2, s3, s4, s5, s6), log ++ [t1]⟩) ∧
    (∀ {σ1 I1 O1 σ2 I2 O2 σ3 I3 O3 σ4 I4 O4 σ5 I5 O5 σ6 I6 O6 : Type} (f1 : σ1 → I1 → O1 × σ1) (g2 : σ2 → σ2) (n3 : FNode σ3 I3 O3) (n4 : FNode σ4 I4 O4) (n5 : FNode σ5 I5 O5) (n6 : FNode σ6 I6 O6)
        (t1 t2 : Nat) (s1 : σ1) (s2 : σ2) (s3 : σ3) (s4 : σ4) (s5 : σ5) (s6 : σ6) (log : List Nat) (x1 : I1) (x2 : I2) (x3 : I3) (x4 : I4) (x5 : I5) (x6 : I6),
      ftuple6 (fprobe t1 f1) ((ffail t2 g2 : FNode σ2 I2 O2)) n3 n4 n5 n6 (s1, s2, s3, s4, s5, s6) log (x1, x2, x3, x4, x5, x6) =
        ⟨none, ((f1 s1 x1).2, g2 s2, s3, s4, s5, s6), log ++ [t1, t2]⟩) ∧
    (∀ {σ1 I1 O1 σ2 I2 O2 σ3 I3 O3 σ4 I4 O4 σ5 I5 O5 σ6 I6 O6 : Type} (f1 : σ1 → I1 → O1 × σ1) (f2 : σ2 → I2 → O2 × σ2) (g3 : σ3 → σ3) (n4 : FNode σ4 I4 O4) (n5 : FNode σ5 I5 O5) (n6 : FNode σ6 I6 O6)
        (t1 t2 t3 : Nat) (s1 : σ1) (s2 : σ2) (s3 : σ3) (s4 : σ4) (s5 : σ5) (s6 : σ6) (log : List Nat) (x1 : I1) (x2 : I2) (x3 : I3) (x4 : I4) (x5 : I5) (x6 : I6),
      ftuple6 (fprobe t1 f1) (fprobe t2 f2) ((ffail t3 g3 : FNode σ3 I3 O3)) n4 n5 n6 (s1, s2, s3, s4, s5, s6) log (x1, x2, x3, x4, x5, x6) =
        ⟨none, ((f1 s1 x1).2, (f2 s2 x2).2, g3 s3, s4, s5, s6), log ++ [t1, t2, t3]⟩) ∧
    (∀ {σ1 I1 O1 σ2 I2 O2 σ3 I3 O3 σ4 I4 O4 σ5 I5 O5 σ6 I6 O6 : Type} (f1 : σ1 → I1 → O1 × σ1) (f2 : σ2 → I2 → O2 × σ2) (f3 : σ3 → I3 → O3 × σ3) (g4 : σ4 → σ4) (n5 : FNode σ5 I5 O5) (n6 : FNode σ6 I6 O6)
        (t1 t2 t3 t4 : Nat) (s1 : σ1) (s2 : σ2) (s3 : σ3) (s4 : σ4) (s5 : σ5) (s6 : σ6) (log : List Nat) (x1 : I1) (x2 : I2) (x3 : I3) (x4 : I4) (x5 : I5) (x6 : I6),
      ftuple6 (fprobe t1 f1) (fprobe t2 f2) (fprobe t3 f3) ((ffail t4 g4 : FNode σ4 I4 O4)) n5 n6 (s1, s2, s3, s4, s5, s6) log (x1, x2, x3, x4, x5, x6) =
        ⟨none, ((f1 s1 x1).2, (f2 s2 x2).2, (f3 s3 x3).2, g4 s4, s5, s6), log ++ [t1, t2, t3, t4]⟩) ∧
    (∀ {σ1 I1 O1 σ2 I2 O2 σ3 I3 O3 σ4 I4 O4 σ5 I5 O5 σ6 I6 O6 : Type} (f1 : σ1 → I1 → O1 × σ1) (f2 : σ2 → I2 → O2 × σ2) (f3 : σ3 → I3 → O3 × σ3) (f4 : σ4 → I4 → O4 × σ4) (g5 : σ5 → σ5) (n6 : FNode σ6 I6 O6)
        (t1 t2 t3 t4 t5 : Nat) (s1 : σ1) (s2 : σ2) (s3 : σ3) (s4 : σ4) (s5 : σ5) (s6 : σ6) (log : List Nat) (x1 : I1) (x2 : I2) (x3 : I3) (x4 : I4) (x5 : I5) (x6 : I6),
      ftuple6 (fprobe t1 f1) (fprobe t2 f2) (fprobe t3 f3) (fprobe t4 f4) ((ffail t5 g5 : FNode σ5 I5 O5)) n6 (s1, s2, s3, s4, s5, s6) log (x1, x2, x3, x4, x5, x6) =
        ⟨none, ((f1 s1 x1).2, (f2 s2 x2).2, (f3 s3 x3).2, (f4 s4 x4).2, g5 s5, s6), log ++ [t1, t2, t3, t4, t5]⟩) ∧
    (∀ {σ1 I1 O1 σ2 I2 O2 σ3 I3 O3 σ4 I4 O4 σ5 I5 O5 σ6 I6 O6 : Type} (f1 : σ1 → I1 → O1 × σ1) (f2 : σ2 → I2 → O2 × σ2) (f3 : σ3 → I3 → O3 × σ3) (f4 : σ4 → I4 → O4 × σ4) (f5 : σ5 → I5 → O5 × σ5) (g6 : σ6 → σ6)
        (t1 t2 t3 t4 t5 t6 : Nat) (s1 : σ1) (s2 : σ2) (s3 : σ3) (s4 : σ4) (s5 : σ5) (s6 : σ6) (log : List Nat) (x1 : I1) (x2 : I2) (x3 : I3) (x4 : I4) (x5 : I5) (x6 : I6),
      ftuple6 (fprobe t1 f1) (fprobe t2 f2) (fprobe t3 f3) (fprobe t4 f4) (fprobe t5 f5) ((ffail t6 g6 : FNode σ6 I6 O6)) (s1, s2, s3, s4, s5, s6) log (x1, x2, x3, x4, x5, x6) =
        ⟨none, ((f1 s1 x1).2, (f2 s2 x2).2, (f3 s3 x3).2, (f4 s4 x4).2, (f5 s5 x5).2, g6 s6), log ++ [t1, t2, t3, t4, t5, t6]⟩) ∧
    (∀ {σ1 I1 O1 σ2 I2 O2 σ3 I3 O3 σ4 I4 O4 σ5 I5 O5 σ6 I6 O6 σ7 I7 O7 : Type} (g1 : σ1 → σ1) (n2 : FNode σ2 I2 O2) (n3 : FNode σ3 I3 O3) (n4 : FNode σ4 I4 O4) (n5 : FNode σ5 I5 O5) (n6 : FNode σ6 I6 O6) (n7 : FNode σ7 I7 O7)
        (t1 : Nat) (s1 : σ1) (s2 : σ2) (s3 : σ3) (s4 : σ4) (s5 : σ5) (s6 : σ6) (s7 : σ7) (log : List Nat) (x1 : I1) (x2 : I2) (x3 : I3) (x4 : I4) (x5 : I5) (x6 : I6) (x7 : I7),
      ftuple7 ((ffail t1 g1 : FNode σ1 I1 O1)) n2 n3 n4 n5 n6 n7 (s1, s2, s3, s4, s5, s6, s7) log (x1, x2, x3, x4, x5, x6, x7) =
        ⟨none, (g1 s1, s2, s3, s4, s5, s6, s7), log ++ [t1]⟩) ∧
    (∀ {σ1 I1 O1 σ2 I2 O2 σ3 I3 O3 σ4 I4 O4 σ5 I5 O5 σ6 I6 O6 σ7 I7 O7 : Type} (f1 : σ1 → I1 → O1 × σ1) (g2 : σ2 → σ2) (n3 : FNode σ3 I3 O3) (n4 : FNode σ4 I4 O4) (n5 : FNode σ5 I5 O5) (n6 : FNode σ6 I6 O6) (n7 : FNode σ7 I7 O7)
        (t1 t2 : Nat) (s1 : σ1) (s2 : σ2) (s3 : σ3) (s4 : σ4) (s5 : σ5) (s6 : σ6) (s7 : σ7) (log : List Nat) (x1 : I1) (x2 : I2) (x3 : I3) (x4 : I4) (x5 : I5) (x6 : I6) (x7 : I7),
      ftuple7 (fprobe t1 f1) ((ffail t2 g2 : FNode σ2 I2 O2)) n3 n4 n5 n6 n7 (s1, s2, s3, s4, s5, s6, s7) log (x1, x2, x3, x4, x5, x6, x7) =
        ⟨none, ((f1 s1 x1).2, g2 s2, s3, s4, s5, s6, s7), log ++ [t1, t2]⟩) ∧
    (∀ {σ1 I1 O1 σ2 I2 O2 σ3 I3 O3 σ4 I4 O4 σ5 I5 O5 σ6 I6 O6 σ7 I7 O7 : Type} (f1 : σ1 → I1 → O1 × σ1) (f2 : σ2 → I2 → O2 × σ2) (g3 : σ3 → σ3) (n4 : FNode σ4 I4 O4) (n5 : FNode σ5 I5 O5) (n6 : FNode σ6 I6 O6) (n7 : FNode σ7 I7 O7)
        (t1 t2 t3 : Nat) (s1 : σ1) (s2 : σ2) (s3 : σ3) (s4 : σ4) (s5 : σ5) (s6 : σ6) (s7 : σ7) (log : List Nat) (x1 : I1) (x2 : I2) (x3 : I3) (x4 : I4) (x5 : I5) (x6 : I6) (x7 : I7),
      ftuple7 (fprobe t1 f1) (fprobe t2 f2) ((ffail t3 g3 : FNode σ3 I3 O3)) n4 n5 n6 n7 (s1, s2, s3, s4, s5, s6, s7) log (x1, x2, x3, x4, x5, x6, x7) =
        ⟨none, ((f1 s1 x1).2, (f2 s2 x2).2, g3 s3, s4, s5, s6, s7), log ++ [t1, t2, t3]⟩) ∧
    (∀ {σ1 I1 O1 σ2 I2 O2 σ3 I3 O3 σ4 I4 O4 σ5 I5 O5 σ6 I6 O6 σ7 I7 O7 : Type} (f1 : σ1 → I1 → O1 × σ1) (f2 : σ2 → I2 → O2 × σ2) (f3 : σ3 → I3 → O3 × σ3) (g4 : σ4 → σ4) (n5 : FNode σ5 I5 O5) (n6 : FNode σ6 I6 O6) (n7 : FNode σ7 I7 O7)
        (t1 t2 t3 t4 : Nat) (s1 : σ1) (s2 : σ2) (s3 : σ3) (s4 : σ4) (s5 : σ5) (s6 : σ6) (s7 : σ7) (log : List Nat) (x1 : I1) (x2 : I2) (x3 : I3) (x4 : I4) (x5 : I5) (x6 : I6) (x7 : I7),
      ftuple7 (fprobe t1 f1) (fprobe t2 f2) (fprobe t3 f3) ((ffail t4 g4 : FNode σ4 I4 O4)) n5 n6 n7 (s1, s2, s3, s4, s5, s6, s7) log (x1, x2, x3, x4, x5, x6, x7) =
        ⟨none, ((f1 s1 x1).2, (f2 s2 x2).2, (f3 s3 x3).2, g4 s4, s5, s6, s7), log ++ [t1, t2, t3, t4]⟩) ∧
    (∀ {σ1 I1 O1 σ2 I2 O2 σ3 I3 O3 σ4 I4 O4 σ5 I5 O5 σ6 I6 O6 σ7 I7 O7 : Type} (f1 : σ1 → I1 → O1 × σ1) (f2 : σ2 → I2 → O2 × σ2) (f3 : σ3 → I3 → O3 × σ3) (f4 : σ4 → I4 → O4 × σ4) (g5 : σ5 → σ5) (n6 : FNode σ6 I6 O6) (n7 : FNode σ7 I7 O7)
        (t1 t2 t3 t4 t5 : Nat) (s1 : σ1) (s2 : σ2) (s3 : σ3) (s4 : σ4) (s5 : σ5) (s6 : σ6) (s7 : σ7) (log : List Nat) (x1 : I1) (x2 : I2) (x3 : I3) (x4 : I4) (x5 : I5) (x6 : I6) (x7 : I7),
      ftuple7 (fprobe t1 f1) (fprobe t2 f2) (fprobe t3 f3) (fprobe t4 f4) ((ffail t5 g5 : FNode σ5 I5 O5)) n6 n7 (s1, s2, s3, s4, s5, s6, s7) log (x1, x2, x3, x4, x5, x6, x7) =
        ⟨none, ((f1 s1 x1).2, (f2 s2 x2).2, (f3 s3 x3).2, (f4 s4 x4).2, g5 s5, s6, s7), log ++ [t1, t2, t3, t4, t5]⟩) ∧
    (∀ {σ1 I1 O1 σ2 I2 O2 σ3 I3 O3 σ4 I4 O4 σ5 I5 O5 σ6 I6 O6 σ7 I7 O7 : Type} (f1 : σ1 → I1 → O1 × σ1) (f2 : σ2 → I2 → O2 × σ2) (f3 : σ3 → I3 → O3 × σ3) (f4 : σ4 → I4 → O4 × σ4) (f5 : σ5 → I5 → O5 × σ5) (g6 : σ6 → σ6) (n7 : FNode σ7 I7 O7)
        (t1 t2 t3 t4 t5 t6 : Nat) (s1 : σ1) (s2 : σ2) (s3 : σ3) (s4 : σ4) (s5 : σ5) (s6 : σ6) (s7 : σ7) (log : List Nat) (x1 : I1) (x2 : I2) (x3 : I3) (x4 : I4) (x5 : I5) (x6 : I6) (x7 : I7),
      ftuple7 (fprobe t1 f1) (fprobe t2 f2) (fprobe t3 f3) (fprobe t4 f4) (fprobe t5 f5) ((ffail t6 g6 : FNode σ6 I6 O6)) n7 (s1, s2, s3, s4, s5, s6, s7) log (x1, x2, x3, x4, x5, x6, x7) =
        ⟨none, ((f1 s1 x1).2, (f2 s2 x2).2, (f3 s3 x3).2, (f4 s4 x4).2, (f5 s5 x5).2, g6 s6, s7), log ++ [t1, t2, t3, t4, t5, t6]⟩) ∧
    (∀ {σ1 I1 O1 σ2 I2 O2 σ3 I3 O3 σ4 I4 O4 σ5 I5 O5 σ6 I6 O6 σ7 I7 O7 : Type} (f1 : σ1 → I1 → O1 × σ1) (f2 : σ2 → I2 → O2 × σ2) (f3 : σ3 → I3 → O3 × σ3) (f4 : σ4 → I4 → O4 × σ4) (f5 : σ5 → I5 → O5 × σ5) (f6 : σ6 → I6 → O6 × σ6) (g7 : σ7 → σ7)
        (t1 t2 t3 t4 t5 t6 t7 : Nat) (s1 : σ1) (s2 : σ2) (s3 : σ3) (s4 : σ4) (s5 : σ5) (s6 : σ6) (s7 : σ7) (log : List Nat) (x1 : I1) (x2 : I2) (x3 : I3) (x4 : I4) (x5 : I5) (x6 : I6) (x7 : I7),
      ftuple7 (fprobe t1 f1) (fprobe t2 f2) (fprobe t3 f3) (fprobe t4 f4) (fprobe t5 f5) (fprobe t6 f6) ((ffail t7 g7 : FNode σ7 I7 O7)) (s1, s2, s3, s4, s5, s6, s7) log (x1, x2, x3, x4, x5, x6, x7) =
        ⟨none, ((f1 s1 x1).2, (f2 s2 x2).2, (f3 s3 x3).2, (f4 s4 x4).2, (f5 s5 x5).2, (f6 s6 x6).2, g7 s7), log ++ [t1, t2, t3, t4, t5, t6, t7]⟩) ∧
    (∀ {σ1 I1 O1 σ2 I2 O2 σ3 I3 O3 σ4 I4 O4 σ5 I5 O5 σ6 I6 O6 σ7 I7 O7 σ8 I8 O8 : Type} (g1 : σ1 → σ1) (n2 : FNode σ2 I2 O2) (n3 : FNode σ3 I3 O3) (n4 : FNode σ4 I4 O4) (n5 : FNode σ5 I5 O5) (n6 : FNode σ6 I6 O6) (n7 : FNode σ7 I7 O7) (n8 : FNode σ8 I8 O8)
        (t1 : Nat) (s1 : σ1) (s2 : σ2) (s3 : σ3) (s4 : σ4) (s5 : σ5) (s6 : σ6) (s7 : σ7) (s8 : σ8) (log : List Nat) (x1 : I1) (x2 : I2) (x3 : I3) (x4 : I4) (x5 : I5) (x6 : I6) (x7 : I7) (x8 : I8),
      ftuple8 ((ffail t1 g1 : FNode σ1 I1 O1)) n2 n3 n4 n5 n6 n7 n8 (s1, s2, s3, s4, s5, s6, s7, s8) log (x1, x2, x3, x4, x5, x6, x7, x8) =
        ⟨none, (g1 s1, s2, s3, s4, s5, s6, s7, s8), log ++ [t1]⟩) ∧
    (∀ {σ1 I1 O1 σ2 I2 O2 σ3 I3 O3 σ4 I4 O4 σ5 I5 O5 σ6 I6 O6 σ7 I7 O7 σ8 I8 O8 : Type} (f1 : σ1 → I1 → O1 × σ1) (g2 : σ2 → σ2) (n3 : FNode σ3 I3 O3) (n4 : FNode σ4 I4 O4) (n5 : FNode σ5 I5 O5) (n6 : FNode σ6 I6 O6) (n7 : FNode σ7 I7 O7) (n8 : FNode σ8 I8 O8)
        (t1 t2 : Nat) (s1 : σ1) (s2 : σ2) (s3 : σ3) (s4 : σ4) (s5 : σ5) (s6 : σ6) (s7 : σ7) (s8 : σ8) (log : List Nat) (x1 : I1) (x2 : I2) (x3 : I3) (x4 : I4) (x5 : I5) (x6 : I6) (x7 : I7) (x8 : I8),
      ftuple8 (fprobe t1 f1) ((ffail t2 g2 : FNode σ2 I2 O2)) n3 n4 n5 n6 n7 n8 (s1, s2, s3, s4, s5, s6, s7, s8) log (x1, x2, x3, x4, x5, x6, x7, x8) =
        ⟨none, ((f1 s1 x1).2, g2 s2, s3, s4, s5, s6, s7, s8), log ++ [t1, t2]⟩) ∧
    (∀ {σ1 I1 O1 σ2 I2 O2 σ3 I3 O3 σ4 I4 O4 σ5 I5 O5 σ6 I6 O6 σ7 I7 O7 σ8 I8 O8 : Type} (f1 : σ1 → I1 → O1 × σ1) (f2 : σ2 → I2 → O2 × σ2) (g3 : σ3 → σ3) (n4 : FNode σ4 I4 O4) (n5 : FNode σ5 I5 O5) (n6 : FNode σ6 I6 O6) (n7 : FNode σ7 I7 O7) (n8 : FNode σ8 I8 O8)
        (t1 t2 t3 : Nat) (s1 : σ1) (s2 : σ2) (s3 : σ3) (s4 : σ4) (s5 : σ5) (s6 : σ6) (s7 : σ7) (s8 : σ8) (log : List Nat) (x1 : I1) (x2 : I2) (x3 : I3) (x4 : I4) (x5 : I5) (x6 : I6) (x7 : I7) (x8 : I8),
      ftuple8 (fprobe t1 f1) (fprobe t2 f2) ((ffail t3 g3 : FNode σ3 I3 O3)) n4 n5 n6 n7 n8 (s1, s2, s3, s4, s5, s6, s7, s8) log (x1, x2, x3, x4, x5, x6, x7, x8) =
        ⟨none, ((f1 s1 x1).2, (f2 s2 x2).2, g3 s3, s4, s5, s6, s7, s8), log ++ [t1, t2, t3]⟩) ∧
    (∀ {σ1 I1 O1 σ2 I2 O2 σ3 I3 O3 σ4 I4 O4 σ5 I5 O5 σ6 I6 O6 σ7 I7 O7 σ8 I8 O8 : Type} (f1 : σ1 → I1 → O1 × σ1) (f2 : σ2 → I2 → O2 × σ2) (f3 : σ3 → I3 → O3 × σ3) (g4 : σ4 → σ4) (n5 : FNode σ5 I5 O5) (n6 : FNode σ6 I6 O6) (n7 : FNode σ7 I7 O7) (n8 : FNode σ8 I8 O8)
        (t1 t2 t3 t4 : Nat) (s1 : σ1) (s2 : σ2) (s3 : σ3) (s4 : σ4) (s5 : σ5) (s6 : σ6) (s7 : σ7) (s8 : σ8) (log : List Nat) (x1 : I1) (x2 : I2) (x3 : I3) (x4 : I4) (x5 : I5) (x6 : I6) (x7 : I7) (x8 : I8),
      ftuple8 (fprobe t1 f1) (fprobe t2 f2) (fprobe t3 f3) ((ffail t4 g4 : FNode σ4 I4 O4)) n5 n6 n7 n8 (s1, s2, s3, s4, s5, s6, s7, s8) log (x1, x2, x3, x4, x5, x6, x7, x8) =
        ⟨none, ((f1 s1 x1).2, (f2 s2 x2).2, (f3 s3 x3).2, g4 s4, s5, s6, s7, s8), log ++ [t1, t2, t3, t4]⟩) ∧
    (∀ {σ1 I1 O1 σ2 I2 O2 σ3 I3 O3 σ4 I4 O4 σ5 I5 O5 σ6 I6 O6 σ7 I7 O7 σ8 I8 O8 : Type} (f1 : σ1 → I1 → O1 × σ1) (f2 : σ2 → I2 → O2 × σ2) (f3 : σ3 → I3 → O3 × σ3) (f4 : σ4 → I4 → O4 × σ4) (g5 : σ5 → σ5) (n6 : FNode σ6 I6 O6) (n7 : FNode σ7 I7 O7) (n8 : FNode σ8 I8 O8)
        (t1 t2 t3 t4 t5 : Nat) (s1 : σ1) (s2 : σ2) (s3 : σ3) (s4 : σ4) (s5 : σ5) (s6 : σ6) (s7 : σ7) (s8 : σ8) (log : List Nat) (x1 : I1) (x2 : I2) (x3 : I3) (x4 : I4) (x5 : I5) (x6 : I6) (x7 : I7) (x8 : I8),
      ftuple8 (fprobe t1 f1) (fprobe t2 f2) (fprobe t3 f3) (fprobe t4 f4) ((ffail t5 g5 : FNode σ5 I5 O5)) n6 n7 n8 (s1, s2, s3, s4, s5, s6, s7, s8) log (x1, x2, x3, x4, x5, x6, x7, x8) =
        ⟨none, ((f1 s1 x1).2, (f2 s2 x2).2, (f3 s3 x3).2, (f4 s4 x4).2, g5 s5, s6, s7, s8), log ++ [t1, t2, t3, t4, t5]⟩) ∧
    (∀ {σ1 I1 O1 σ2 I2 O2 σ3 I3 O3 σ4 I4 O4 σ5 I5 O5 σ6 I6 O6 σ7 I7 O7 σ8 I8 O8 : Type} (f1 : σ1 → I1 → O1 × σ1) (f2 : σ2 → I2 → O2 × σ2) (f3 : σ3 → I3 → O3 × σ3) (f4 : σ4 → I4 → O4 × σ4) (f5 : σ5 → I5 → O5 × σ5) (g6 : σ6 → σ6) (n7 : FNode σ7 I7 O7) (n8 : FNode σ8 I8 O8)
        (t1 t2 t3 t4 t5 t6 : Nat) (s1 : σ1) (s2 : σ2) (s3 : σ3) (s4 : σ4) (s5 : σ5) (s6 : σ6) (s7 : σ7) (s8 : σ8) (log : List Nat) (x1 : I1) (x2 : I2) (x3 : I3) (x4 : I4) (x5 : I5) (x6 : I6) (x7 : I7) (x8 : I8),
      ftuple8 (fprobe t1 f1) (fprobe t2 f2) (fprobe t3 f3) (fprobe t4 f4) (fprobe t5 f5) ((ffail t6 g6 : FNode σ6 I6 O6)) n7 n8 (s1, s2, s3, s4, s5, s6, s7, s8) log (x1, x2, x3, x4, x5, x6, x7, x8) =
        ⟨none, ((f1 s1 x1).2, (f2 s2 x2).2, (f3 s3 x3).2, (f4 s4 x4).2, (f5 s5 x5).2, g6 s6, s7, s8), log ++ [t1, t2, t3, t4, t5, t6]⟩) ∧
    (∀ {σ1 I1 O1 σ2 I2 O2 σ3 I3 O3 σ4 I4 O4 σ5 I5 O5 σ6 I6 O6 σ7 I7 O7 σ8 I8 O8 : Type} (f1 : σ1 → I1 → O1 × σ1) (f2 : σ2 → I2 → O2 × σ2) (f3 : σ3 → I3 → O3 × σ3) (f4 : σ4 → I4 → O4 × σ4) (f5 : σ5 → I5 → O5 × σ5) (f6 : σ6 → I6 → O6 × σ6) (g7 : σ7 → σ7) (n8 : FNode σ8 I8 O8)
        (t1 t2 t3 t4 t5 t6 t7 : Nat) (s1 : σ1) (s2 : σ2) (s3 : σ3) (s4 : σ4) (s5 : σ5) (s6 : σ6) (s7 : σ7) (s8 : σ8) (log : List Nat) (x1 : I1) (x2 : I2) (x3 : I3) (x4 : I4) (x5 : I5) (x6 : I6) (x7 : I7) (x8 : I8),
      ftuple8 (fprobe t1 f1) (fprobe t2 f2) (fprobe t3 f3) (fprobe t4 f4) (fprobe t5 f5) (fprobe t6 f6) ((ffail t7 g7 : FNode σ7 I7 O7)) n8 (s1, s2, s3, s4, s5, s6, s7, s8) log (x1, x2, x3, x4, x5, x6, x7, x8) =
        ⟨none, ((f1 s1 x1).2, (f2 s2 x2).2, (f3 s3 x3).2, (f4 s4 x4).2, (f5 s5 x5).2, (f6 s6 x6).2, g7 s7, s8), log ++ [t1, t2, t3, t4, t5, t6, t7]⟩) ∧
    (∀ {σ1 I1 O1 σ2 I2 O2 σ3 I3 O3 σ4 I4 O4 σ5 I5 O5 σ6 I6 O6 σ7 I7 O7 σ8 I8 O8 : Type} (f1 : σ1 → I1 → O1 × σ1) (f2 : σ2 → I2 → O2 × σ2) (f3 : σ3 → I3 → O3 × σ3) (f4 : σ4 → I4 → O4 × σ4) (f5 : σ5 → I5 → O5 × σ5) (f6 : σ6 → I6 → O6 × σ6) (f7 : σ7 → I7 → O7 × σ7) (g8 : σ8 → σ8)
        (t1 t2 t3 t4 t5 t6 t7 t8 : Nat) (s1 : σ1) (s2 : σ2) (s3 : σ3) (s4 : σ4) (s5 : σ5) (s6 : σ6) (s7 : σ7) (s8 : σ8) (log : List Nat) (x1 : I1) (x2 : I2) (x3 : I3) (x4 : I4) (x5 : I5) (x6 : I6) (x7 : I7) (x8 : I8),
      ftuple8 (fprobe t1 f1) (fprobe t2 f2) (fprobe t3 f3) (fprobe t4 f4) (fprobe t5 f5) (fprobe t6 f6) (fprobe t7 f7) ((ffail t8 g8 : FNode σ8 I8 O8)) (s1, s2, s3, s4, s5, s6, s7, s8) log (x1, x2, x3, x4, x5, x6, x7, x8) =
        ⟨none, ((f1 s1 x1).2, (f2 s2 x2).2, (f3 s3 x3).2, (f4 s4 x4).2, (f5 s5 x5).2, (f6 s6 x6).2, (f7 s7 x7).2, g8 s8), log ++ [t1, t2, t3, t4, t5, t6, t7, t8]⟩) := by
  refine ⟨?_, ?_, ?_, ?_, ?_, ?_, ?_, ?_, ?_, ?_, ?_, ?_, ?_, ?_, ?_, ?_, ?_, ?_, ?_, ?_, ?_, ?_, ?_, ?_, ?_, ?_, ?_, ?_, ?_, ?_, ?_, ?_, ?_, ?_, ?_, ?_⟩ <;>
    { intros
      simp [ftuple1, ftuple2, ftuple3, ftuple4, ftuple5, ftuple6, ftuple7,
        ftuple8, fprobe, ffail] }


/-- Helper for the determinism claim: a composite all of whose leaves are
pure functions changes neither its state nor the log, and its output is a
function of the input alone (its `PG.eval`). -/
theorem denote_pure_eval {I O : Type} (g : PG I O) :
    ∀ (s : g.St) (log : List Nat) (x : I),
      g.denote s log x = ⟨g.eval x, s, log⟩ := by
  induction g <;> intro s log x <;>
    simp_all [PG.denote, PG.eval, fnNode, pipe, tuple1, tuple2, tuple3,
      tuple4, tuple5, tuple6, tuple7, tuple8]

/-- C10: if every leaf of a composite (any nesting of Pipe and TupleGroup,
arities 1 through 8) is a pure function, the composite is deterministic:
two runs on equal inputs return equal outputs regardless of starting state
and log, and each run leaves the state and log exactly as it found them. -/
theorem pure_composite_deterministic :
    ∀ {I O : Type} (g : PG I O) (s sb : g.St) (log logb : List Nat) (x : I),
      (g.denote s log x).out = (g.denote sb logb x).out ∧
      (g.denote s log x).st = s ∧ (g.denote s log x).log = log := by
  intro I O g s sb log logb x
  simp [denote_pure_eval]
